import Mathlib

/-!
Verification of the path-and-query router with filtered data serving
(the Node.js HTTP server in this repository).

The server handles a request as follows:
* it parses the request URL into a `pathName` and a `queryParams` object
  (`Object.fromEntries(url.searchParams)`, so each key maps to one string);
* path `/` returns status 200 with a fixed HTML body, content type `text/html`;
* path `/api` reads and JSON-parses `data.json`; on any read or parse failure
  the `catch` branch returns status 404 with body `{"error":"Data file not found"}`
  and content type `application/json`; on success it applies
  `if (queryParams.category) productData = productData.filter(item => item.category === queryParams.category)`
  then
  `if (queryParams.limit) productData = productData.slice(0, parseInt(queryParams.limit))`
  and returns status 200 with the JSON serialization, content type `application/json`;
* any other path returns status 404 with a fixed HTML body.

The embedding below models each of these pieces directly from the source.
JavaScript semantics that matter here and are modelled faithfully:
* a string is truthy iff it is non-empty, so `if (queryParams.category)` fires
  exactly when the parameter is present with a non-empty value;
* `parseInt(s)` (no radix) skips leading whitespace, reads an optional sign,
  an optional `0x`/`0X` hex prefix, then the longest run of digits of the
  resulting radix; it returns NaN when that run is empty (modelled as `none`);
* `arr.slice(0, end)` converts `end` with ToIntegerOrInfinity (NaN becomes 0),
  clamps a negative `end` to `max(len + end, 0)` and a non-negative one to
  `min(end, len)`, and takes that initial segment.
-/

namespace NodeApi

/-- One record of the static collection loaded from `data.json`: a `category`
string plus arbitrary other fields, abstracted as an opaque payload string. -/
structure Record where
  category : String
  payload : String
deriving DecidableEq, Repr

/-- The query parameters object `Object.fromEntries(url.searchParams)`,
restricted to the two keys the handler reads.  A key absent from the query
string is `none`; a key present (possibly with empty value) is `some value`. -/
structure QueryParams where
  category : Option String
  limit : Option String
deriving DecidableEq, Repr

/-- A response as written by the handler: status code from `writeHead`, the
`Content-Type` header, and the body passed to `res.end`. -/
structure Response where
  status : Nat
  contentType : String
  body : String
deriving DecidableEq, Repr

/-- Value of a character as a hexadecimal digit, if it is one. -/
def hexVal (c : Char) : Option Nat :=
  if '0' ≤ c ∧ c ≤ '9' then some (c.toNat - '0'.toNat)
  else if 'a' ≤ c ∧ c ≤ 'f' then some (c.toNat - 'a'.toNat + 10)
  else if 'A' ≤ c ∧ c ≤ 'F' then some (c.toNat - 'A'.toNat + 10)
  else none

/-- Value of the longest initial run of radix-`radix` digits, accumulated
left to right (ECMAScript parseInt step: mathematical value of `Z`). -/
def digitsValue (radix : Nat) (acc : Nat) : List Char → Nat
  | [] => acc
  | c :: cs =>
    match hexVal c with
    | some v => if v < radix then digitsValue radix (acc * radix + v) cs else acc
    | none => acc

/-- Whether the string starts with at least one radix-`radix` digit
(ECMAScript parseInt: `Z` is non-empty). -/
def hasDigit (radix : Nat) : List Char → Bool
  | [] => false
  | c :: _ =>
    match hexVal c with
    | some v => decide (v < radix)
    | none => false

/-- ECMAScript `parseInt(s)` with no radix argument, on the character list of
the string: skip leading whitespace, read an optional sign, switch to radix 16
on a `0x`/`0X` prefix, then take the value of the longest initial digit run;
`none` models the NaN result when there is no digit. -/
def parseIntChars (cs : List Char) : Option Int :=
  let cs₁ := cs.dropWhile (fun c => c.isWhitespace)
  let signed : Int × List Char :=
    match cs₁ with
    | '-' :: rest => (-1, rest)
    | '+' :: rest => (1, rest)
    | _ => (1, cs₁)
  let prefixed : Nat × List Char :=
    match signed.2 with
    | '0' :: 'x' :: rest => (16, rest)
    | '0' :: 'X' :: rest => (16, rest)
    | _ => (10, signed.2)
  if hasDigit prefixed.1 prefixed.2 then
    some (signed.1 * (digitsValue prefixed.1 0 prefixed.2 : Int))
  else
    none

/-- `parseInt(queryParams.limit)` from the source, on a Lean string. -/
def parseIntJs (s : String) : Option Int :=
  parseIntChars s.data

/-- The effective end index of `arr.slice(0, end)` for an array of length
`len`: ToIntegerOrInfinity maps NaN (`none`) to 0; a negative end is clamped
to `max(len + end, 0)` (here via `Int.toNat`), a non-negative one to
`min(end, len)`. -/
def sliceEnd (len : Nat) : Option Int → Nat
  | none => 0
  | some k => if k < 0 then ((len : Int) + k).toNat else min k.toNat len

/-- `arr.slice(0, e)` where `e` is the (possibly NaN) result of `parseInt`. -/
def jsSlice0 {α : Type} (l : List α) (e : Option Int) : List α :=
  l.take (sliceEnd l.length e)

/-- The category stage of the handler:
`if (queryParams.category) productData = productData.filter(item => item.category === queryParams.category)`.
A present parameter is truthy iff its value is non-empty; `===` on strings is
exact case-sensitive equality with no trimming. -/
def filterStep (qp : QueryParams) (coll : List Record) : List Record :=
  match qp.category with
  | some c => if c ≠ "" then coll.filter (fun item => item.category == c) else coll
  | none => coll

/-- The limit stage of the handler:
`if (queryParams.limit) productData = productData.slice(0, parseInt(queryParams.limit))`. -/
def limitStep (qp : QueryParams) (coll : List Record) : List Record :=
  match qp.limit with
  | some l => if l ≠ "" then jsSlice0 coll (parseIntJs l) else coll
  | none => coll

/-- The successful `/api` data pipeline on a parsed collection: the category
filter runs first, the limit slice second, exactly in source order. -/
def handleData (qp : QueryParams) (coll : List Record) : List Record :=
  limitStep qp (filterStep qp coll)

/-- `JSON.stringify` of one record (a deterministic serialization; the exact
field layout beyond determinism is irrelevant to the claims). -/
def stringifyRecord (r : Record) : String :=
  "\x7b\"category\":\"" ++ r.category ++ "\",\"payload\":\"" ++ r.payload ++ "\"\x7d"

/-- `JSON.stringify` of the record array sent on `/api` success. -/
def stringifyRecords (l : List Record) : String :=
  "[" ++ String.intercalate "," (l.map stringifyRecord) ++ "]"

/-- The fixed home-page HTML written for path `/`. -/
def homeHtml : String :=
  "<!DOCTYPE html>\n<html>\n  <head>\n    <title>Home Page</title>\n  </head>\n  <body>\n    <h1>Welcome to the Home Page</h1>\n    <p>This is the home page content.</p>\n  </body>\n</html>"

/-- `JSON.stringify({ error: \"Data file not found\" })`, the body of the
`catch` branch of `/api`. -/
def dataErrorBody : String :=
  "\x7b\"error\":\"Data file not found\"\x7d"

/-- The request handler of the server.  `method` is `req.method`, which the
source only logs; `pathName` and `qp` come from the parsed URL; `source` is
the outcome of `fs.readFile` + `JSON.parse` on `data.json` for this request
(`none` when the read or the parse fails, which the `catch` turns into the
404 error response; the `try` block also covers the filter and slice, so a
`some` collection always reaches a 200 JSON response). -/
def handleRequest (_method : String) (pathName : String) (qp : QueryParams)
    (source : Option (List Record)) : Response :=
  if pathName = "/" then
    { status := 200, contentType := "text/html", body := homeHtml }
  else if pathName = "/api" then
    match source with
    | some productData =>
      { status := 200, contentType := "application/json",
        body := stringifyRecords (handleData qp productData) }
    | none =>
      { status := 404, contentType := "application/json", body := dataErrorBody }
  else
    { status := 404, contentType := "text/html", body := "<h1>404 - Page Not Found</h1>" }

/-! Helper lemmas shared by the claim theorems. -/

/-- Parsing the empty string yields NaN. -/
theorem parseIntJs_empty : parseIntJs "" = none := rfl

/-- Taking `min n len` elements is the same as taking `n`. -/
theorem take_min_length {α : Type} (d : List α) (n : Nat) :
    d.take (min n d.length) = d.take n := by
  rcases Nat.le_total n d.length with h | h
  · rw [Nat.min_eq_left h]
  · rw [Nat.min_eq_right h, List.take_length]
    exact (List.take_of_length_le h).symm

/-- When the limit string parses to the non-negative integer `N`, the limit
stage is exactly `List.take N`. -/
theorem limitStep_take (qp : QueryParams) (d : List Record) (l : String) (N : Nat)
    (hl : qp.limit = some l) (hp : parseIntJs l = some (N : Int)) :
    limitStep qp d = d.take N := by
  have hne : l ≠ "" := by
    intro he
    rw [he, parseIntJs_empty] at hp
    exact Option.noConfusion hp
  have hslice : jsSlice0 d (some ((N : Nat) : Int)) = d.take N := by
    simp only [jsSlice0, sliceEnd]
    rw [if_neg (not_lt.mpr (Int.natCast_nonneg N)), Int.toNat_natCast]
    exact take_min_length d N
  simp only [limitStep, hl]
  rw [if_pos hne, hp, hslice]

/-- When the category parameter is present and non-empty, the filter stage is
exactly `List.filter` on category equality. -/
theorem filterStep_eq_filter (qp : QueryParams) (coll : List Record) (X : String)
    (hc : qp.category = some X) (hX : X ≠ "") :
    filterStep qp coll = coll.filter (fun item => item.category == X) := by
  simp only [filterStep, hc]
  rw [if_pos hX]

/-- The filter stage always yields a sublist of its input. -/
theorem filterStep_sublist_self (qp : QueryParams) (coll : List Record) :
    (filterStep qp coll).Sublist coll := by
  cases hcat : qp.category with
  | none =>
    simp only [filterStep, hcat]
    exact List.Sublist.refl coll
  | some c =>
    by_cases h : c = ""
    · simp only [filterStep, hcat]
      rw [if_neg (not_not_intro h)]
    · simp only [filterStep, hcat]
      rw [if_pos h]
      exact List.filter_sublist coll

/-- The limit stage always yields an initial segment of its input: it is a
`slice` from index 0, whatever `parseInt` returned. -/
theorem limitStep_prefix_self (qp : QueryParams) (d : List Record) :
    limitStep qp d <+: d := by
  cases hlim : qp.limit with
  | none =>
    simp only [limitStep, hlim]
    exact List.prefix_refl d
  | some l =>
    by_cases h : l = ""
    · simp only [limitStep, hlim]
      rw [if_neg (not_not_intro h)]
    · simp only [limitStep, hlim]
      rw [if_pos h]
      exact List.take_prefix _ _

/-! Claim theorems. -/

/-- Claim C1, counterexample: a limit that parses to no number (here `"abc"`)
is NOT treated as "no limit": `slice(0, parseInt("abc")) = slice(0, NaN)`
takes zero elements, so the handler returns the empty sequence even though
the filtered collection is non-empty. -/
theorem C1_counterexample :
    parseIntJs "abc" = none ∧
    filterStep ⟨none, some "abc"⟩ [⟨"x", "p"⟩] = [⟨"x", "p"⟩] ∧
    handleData ⟨none, some "abc"⟩ [⟨"x", "p"⟩] = [] := by
  decide

/-- Claim C1, amended: for every request whose limit parameter is present,
non-empty, and parses to no number, the handler returns the EMPTY sequence
(NaN becomes slice end 0), and the request still does not fail: the `/api`
response status is 200. -/
theorem C1_unparseable_limit (m : String) (qp : QueryParams) (coll : List Record)
    (l : String) (hl : qp.limit = some l) (hne : l ≠ "") (hp : parseIntJs l = none) :
    handleData qp coll = [] ∧
    (handleRequest m "/api" qp (some coll)).status = 200 := by
  constructor
  · simp only [handleData, limitStep, hl]
    rw [if_pos hne, hp]
    rfl
  · rfl

/-- Claim C1, witness: the amended claim at limit `"abc"` on a one-record
collection. -/
theorem C1_unparseable_limit_witness :
    handleData ⟨none, some "abc"⟩ [⟨"y", "q"⟩] = [] ∧
    (handleRequest "GET" "/api" ⟨none, some "abc"⟩ (some [⟨"y", "q"⟩])).status = 200 :=
  C1_unparseable_limit "GET" ⟨none, some "abc"⟩ [⟨"y", "q"⟩] "abc" rfl (by decide) (by decide)

/-- Claim C2: routing is by exact path match — `/` yields status 200 with
content type `text/html` regardless of query parameters (and of the data
source), and any path that is neither `/` nor `/api` yields status 404. -/
theorem C2_exact_path_routing (m : String) (qp : QueryParams)
    (src : Option (List Record)) (p : String) :
    (handleRequest m "/" qp src).status = 200 ∧
    (handleRequest m "/" qp src).contentType = "text/html" ∧
    (p ≠ "/" → p ≠ "/api" → (handleRequest m p qp src).status = 404) := by
  refine ⟨rfl, rfl, fun h₁ h₂ => ?_⟩
  unfold handleRequest
  rw [if_neg h₁, if_neg h₂]

/-- Claim C2, witness: the home route answers 200 and an unmatched path
answers 404 on a concrete request. -/
theorem C2_exact_path_routing_witness :
    (handleRequest "GET" "/" ⟨none, none⟩ none).status = 200 ∧
    (handleRequest "GET" "/products" ⟨none, none⟩ none).status = 404 :=
  ⟨(C2_exact_path_routing "GET" ⟨none, none⟩ none "/products").1,
   (C2_exact_path_routing "GET" ⟨none, none⟩ none "/products").2.2 (by decide) (by decide)⟩

/-- Claim C3: for a present non-empty category value `X`, the filter stage
retains exactly the records whose category equals `X` (case-sensitive string
equality, no trimming), preserving relative order (it is `List.filter`, hence
a sublist of the input); a value matched by no record yields `[]`, not an
error. -/
theorem C3_category_filter (qp : QueryParams) (coll : List Record) (X : String)
    (hc : qp.category = some X) (hX : X ≠ "") :
    filterStep qp coll = coll.filter (fun item => item.category == X) ∧
    (∀ r ∈ filterStep qp coll, r.category = X) ∧
    (filterStep qp coll).Sublist coll ∧
    ((∀ r ∈ coll, r.category ≠ X) → filterStep qp coll = []) := by
  have he := filterStep_eq_filter qp coll X hc hX
  refine ⟨he, ?_, filterStep_sublist_self qp coll, ?_⟩
  · intro r hr
    rw [he] at hr
    simpa using (List.mem_filter.mp hr).2
  · intro hnone
    rw [he, List.filter_eq_nil_iff]
    intro a ha
    simpa using hnone a ha

/-- Claim C3, witness: filtering a concrete collection by category `"a"`. -/
theorem C3_category_filter_witness :
    filterStep ⟨some "a", none⟩ [⟨"a", "1"⟩, ⟨"b", "2"⟩, ⟨"a", "3"⟩] = [⟨"a", "1"⟩, ⟨"a", "3"⟩] := by
  have h := (C3_category_filter ⟨some "a", none⟩ [⟨"a", "1"⟩, ⟨"b", "2"⟩, ⟨"a", "3"⟩]
    "a" rfl (by decide)).1
  rw [h]
  decide

/-- Claim C4: when the limit string parses to the non-negative integer `N`,
the result is the first `N` elements of the filtered collection: its length
is `min N (filtered length)`, `N = 0` yields `[]`, and an `N` at least the
filtered length returns the filtered collection unchanged. -/
theorem C4_limit_min_length (qp : QueryParams) (coll : List Record) (l : String) (N : Nat)
    (hl : qp.limit = some l) (hp : parseIntJs l = some (N : Int)) :
    handleData qp coll = (filterStep qp coll).take N ∧
    (handleData qp coll).length = min N (filterStep qp coll).length ∧
    (N = 0 → handleData qp coll = []) ∧
    ((filterStep qp coll).length ≤ N → handleData qp coll = filterStep qp coll) := by
  have ht : handleData qp coll = (filterStep qp coll).take N :=
    limitStep_take qp (filterStep qp coll) l N hl hp
  refine ⟨ht, ?_, ?_, ?_⟩
  · rw [ht, List.length_take]
  · intro h0
    rw [ht, h0]
    rfl
  · intro hle
    rw [ht]
    exact List.take_of_length_le hle

/-- Claim C4, witness: the numeric-prefix limit `"5abc"` parses to 5, larger
than the collection, which is returned unchanged. -/
theorem C4_limit_min_length_witness :
    handleData ⟨none, some "5abc"⟩ [⟨"a", "1"⟩, ⟨"b", "2"⟩]
      = filterStep ⟨none, some "5abc"⟩ [⟨"a", "1"⟩, ⟨"b", "2"⟩] :=
  (C4_limit_min_length ⟨none, some "5abc"⟩ [⟨"a", "1"⟩, ⟨"b", "2"⟩] "5abc" 5
    rfl (by decide)).2.2.2 (by decide)

/-- Claim C5: with both a non-empty category `X` and a limit parsing to `K`,
the handler filters first and limits second — the result is the first `K`
records among those matching `X`, in original order. -/
theorem C5_filter_then_limit (qp : QueryParams) (coll : List Record) (X l : String) (K : Nat)
    (hc : qp.category = some X) (hX : X ≠ "")
    (hl : qp.limit = some l) (hp : parseIntJs l = some (K : Int)) :
    handleData qp coll = (coll.filter (fun item => item.category == X)).take K := by
  unfold handleData
  rw [limitStep_take qp (filterStep qp coll) l K hl hp,
    filterStep_eq_filter qp coll X hc hX]

/-- Claim C5, witness: the specification's example — on
`[{category:"a"}, {category:"b"}, {category:"a"}]` with `category=a&limit=1`
the result is the first matching record only. -/
theorem C5_filter_then_limit_witness :
    handleData ⟨some "a", some "1"⟩ [⟨"a", "p"⟩, ⟨"b", "q"⟩, ⟨"a", "r"⟩] = [⟨"a", "p"⟩] := by
  have h := C5_filter_then_limit ⟨some "a", some "1"⟩ [⟨"a", "p"⟩, ⟨"b", "q"⟩, ⟨"a", "r"⟩]
    "a" "1" 1 rfl (by decide) rfl (by decide)
  rw [h]
  decide

/-- Claim C6: for every query-parameter combination and collection, the
sequence the handler returns is a subsequence of the original ordered
collection — filtering and limiting never reorder records and never
synthesize records absent from the source. -/
theorem C6_subsequence_invariant (qp : QueryParams) (coll : List Record) :
    (handleData qp coll).Sublist coll :=
  ((limitStep_prefix_self qp (filterStep qp coll)).sublist).trans
    (filterStep_sublist_self qp coll)

/-- Claim C7: whenever reading or parsing the data source fails, the `/api`
route answers 404 with content type `application/json` and exactly the body
`\x7b"error":"Data file not found"\x7d` — the failure is absorbed by the
`catch` branch (the handler is a total function, nothing escapes) and no
partial payload is emitted. -/
theorem C7_data_unavailable (m : String) (qp : QueryParams) :
    handleRequest m "/api" qp none
      = { status := 404, contentType := "application/json",
          body := "\x7b\"error\":\"Data file not found\"\x7d" } := rfl

/-- Claim C8: when the category parameter is absent or the empty string, the
filter stage is the identity — the collection handed to the limit stage is
the full loaded collection. -/
theorem C8_absent_or_empty_category (qp : QueryParams) (coll : List Record)
    (h : qp.category = none ∨ qp.category = some "") :
    filterStep qp coll = coll := by
  rcases h with h | h
  · simp only [filterStep, h]
  · simp only [filterStep, h]
    rw [if_neg (not_not_intro rfl)]

/-- Claim C8, witness: an explicit empty-string category applies no
filtering. -/
theorem C8_absent_or_empty_category_witness :
    filterStep ⟨some "", none⟩ [⟨"a", "1"⟩, ⟨"b", "2"⟩] = [⟨"a", "1"⟩, ⟨"b", "2"⟩] :=
  C8_absent_or_empty_category ⟨some "", none⟩ [⟨"a", "1"⟩, ⟨"b", "2"⟩] (Or.inr rfl)

/-- Claim C9: for every limit string whatsoever — negative numerals, atoms
with no numeric prefix, anything — the handler's result is an initial
segment of the filtered collection: `slice(0, _)` can only take a prefix,
never reorder, duplicate, or select non-initial records. -/
theorem C9_limit_initial_segment (qp : QueryParams) (coll : List Record) :
    handleData qp coll <+: filterStep qp coll :=
  limitStep_prefix_self qp (filterStep qp coll)

/-- Claim C10: the request handler is deterministic and depends only on the
path, the query parameters, and the outcome of the data-source read: it is a
pure function of these, and the request method (which the source only logs)
cannot influence the response — two requests alike in path and query
parameters against the same source outcome receive identical status, content
type, and body. -/
theorem C10_deterministic (m₁ m₂ p : String) (qp : QueryParams)
    (src : Option (List Record)) :
    handleRequest m₁ p qp src = handleRequest m₂ p qp src := rfl

end NodeApi
